import Mathlib

/-!
Shallow embedding of the interactive OAuth login-session supervisor of
`src/app.py` (class `InteractiveOAuthSession`, the `oauth_sessions` registry
and the HTTP handlers `api_start_oauth`, `api_oauth_status`,
`api_oauth_output`, `api_oauth_input`).

Conventions of the embedding:
* Python strings become Lean `String`; `a in b` (substring test) becomes
  `pyContains b a`; `s.lower()` becomes `pyLower` (identical to Python on
  the ASCII keywords involved; CJK characters have no case);
  `s[-n:]` becomes `pyLastSlice n s`; `len` becomes `String.length`
  (both count code points).
* File descriptors and process ids are `Option Nat` (Python `None` / int).
* The reader thread's per-chunk classification (`_read_output`,
  lines 633-677, the region under `output_lock`) becomes the pure step
  function `processChunk`, taking the decoded, ANSI-stripped chunk text
  (for the plain printable-ASCII inputs of all theorems below the
  decode+strip stage is the identity).
* Effects on the OS (signals sent, descriptors closed, bytes written to the
  terminal master) are returned explicitly; whether the child process is
  alive at each probe is passed in as a boolean oracle.
-/

namespace CPA

/-- Does `needle` occur as a contiguous sublist of the second argument? -/
def infixAt (needle : List Char) : List Char → Bool
  | [] => needle.isEmpty
  | c :: cs => List.isPrefixOf needle (c :: cs) || infixAt needle cs

/-- Python `needle in hay` substring test on strings. -/
def pyContains (hay needle : String) : Bool :=
  infixAt needle.toList hay.toList

/-- ASCII lowering of one character, as `Char.toLower` and as Python
`str.lower` acts on the ASCII keywords used by the classifier (CJK
characters have no case). -/
def lowerChar (c : Char) : Char :=
  if 65 ≤ c.toNat ∧ c.toNat ≤ 90 then Char.ofNat (c.toNat + 32) else c

/-- Python `s.lower()` (on the classifier's ASCII/CJK material). -/
def pyLower (s : String) : String :=
  String.mk (s.toList.map lowerChar)

/-- Python `s[-n:]`: the last `n` characters of `s` (all of `s` when shorter). -/
def pyLastSlice (n : Nat) (s : String) : String :=
  String.mk (s.toList.drop (s.toList.length - n))

/-- Python `s.rstrip(chr(41))`: drop trailing right-parenthesis characters
(`potential_url.rstrip` in `_read_output`). -/
def rstripParen (u : String) : String :=
  String.mk ((u.toList.reverse.dropWhile (fun c => c = ')')).reverse)

/-- Session state: the mutable fields of `InteractiveOAuthSession.__init__`
(`src/app.py` lines 477-492). `cmd`/`cwd`/locks are omitted: no claim
observes them. -/
structure Session where
  session_id : String
  provider : String
  status : String
  url : Option String
  error : Option String
  output_buffer : String
  master_fd : Option Nat
  slave_fd : Option Nat
  pid : Option Nat
  needs_input : Bool
  input_prompt : String
  completed : Bool
deriving DecidableEq

/-- `InteractiveOAuthSession.__init__`: the freshly constructed session. -/
def mkSession (session_id provider : String) : Session :=
  { session_id := session_id
    provider := provider
    status := "starting"
    url := none
    error := none
    output_buffer := ""
    master_fd := none
    slave_fd := none
    pid := none
    needs_input := false
    input_prompt := ""
    completed := false }

/-- `input_prompts` of `_read_output` (lines 551-576), in source order. -/
def input_prompts : List String :=
  [ "Paste the antigravity callback URL"
  , "paste the callback URL"
  , "callback URL"
  , "press Enter to keep waiting"
  , "Enter project ID"
  , "or ALL:"
  , "Available Google Cloud projects"
  , "Type \x27ALL\x27 to onboard"
  , "Enter choice [1]:"
  , "Which project ID would you like"
  , "[1] Backend (recommended)"
  , "[2] Frontend:"
  , "Enter 1 or 2"
  , "Enter choice"
  , "Enter your choice"
  , "Please paste"
  , "paste the URL"
  , "输入项目"
  , "选择" ]

/-- `success_keywords` of `_read_output` (lines 581-590), in source order. -/
def success_keywords : List String :=
  [ "Authentication saved"
  , "Gemini authentication successful!"
  , "Codex authentication successful!"
  , "Claude authentication successful!"
  , "Qwen authentication successful!"
  , "iFlow authentication successful!"
  , "Antigravity authentication successful!"
  , "saved to" ]

/-- `oauth_domains` of `_read_output` (lines 593-600). -/
def oauth_domains : List String :=
  [ "accounts.google.com"
  , "console.anthropic.com"
  , "auth.openai.com"
  , "oauth"
  , "login"
  , "auth0.com" ]

/-- Python `re` class `\s` on `str` (ASCII whitespace plus Unicode
white-space code points). -/
def pyRegexSpace (c : Char) : Bool :=
  let n := c.toNat
  n = 32 || (9 ≤ n && n ≤ 13) || (28 ≤ n && n ≤ 31) ||
  n = 0x85 || n = 0xa0 || n = 0x1680 || (0x2000 ≤ n && n ≤ 0x200a) ||
  n = 0x2028 || n = 0x2029 || n = 0x202f || n = 0x205f || n = 0x3000

/-- A character admitted by the URL body class of `url_pattern`
(line 548): not whitespace, not a control in `00..1f`, and none of
`<` `>` double-quote (34), apostrophe (39), backtick (96). -/
def urlAllowed (c : Char) : Bool :=
  !(pyRegexSpace c) && !(c.toNat ≤ 0x1f) &&
  c.toNat ≠ 60 && c.toNat ≠ 62 && c.toNat ≠ 34 && c.toNat ≠ 39 && c.toNat ≠ 96

def schemeHttp : List Char := "http://".toList
def schemeHttps : List Char := "https://".toList

/-- The scanning loop of `url_pattern.findall`: leftmost, non-overlapping,
greedy matches of `https?://[body]+`; scanning resumes after each match,
or one character further when no match starts here. `fuel` bounds the
recursion by the input length. -/
def findUrlsAux : Nat → List Char → List String
  | 0, _ => []
  | _ + 1, [] => []
  | fuel + 1, c :: cs =>
    if List.isPrefixOf schemeHttps (c :: cs) then
      let rest := (c :: cs).drop 8
      let run := rest.takeWhile urlAllowed
      if run.isEmpty then findUrlsAux fuel cs
      else String.mk (schemeHttps ++ run) :: findUrlsAux fuel (rest.drop run.length)
    else if List.isPrefixOf schemeHttp (c :: cs) then
      let rest := (c :: cs).drop 7
      let run := rest.takeWhile urlAllowed
      if run.isEmpty then findUrlsAux fuel cs
      else String.mk (schemeHttp ++ run) :: findUrlsAux fuel (rest.drop run.length)
    else findUrlsAux fuel cs

/-- `url_pattern.findall(self.output_buffer)` (line 665). -/
def findUrls (s : String) : List String :=
  findUrlsAux s.toList.length s.toList

/-- Body of the `for potential_url in all_matches` loop (lines 666-677):
strip trailing parentheses, keep only URLs containing an OAuth domain
fragment (case-sensitive), record strictly longer matches, and move to
`waiting_callback` only when no input is pending. -/
def updateUrlStep (st : Session) (m : String) : Session :=
  if oauth_domains.any (fun d => pyContains (rstripParen m) d) then
    if (match st.url with
        | none => true
        | some old => old.length < (rstripParen m).length) then
      { st with url := some (rstripParen m)
                status := if st.needs_input then st.status else "waiting_callback" }
    else st
  else st

/-- The classification performed under `output_lock` on one decoded,
ANSI-stripped chunk (lines 633-677): append to the buffer; success
keywords are tested case-insensitively against the NEW CHUNK only;
otherwise prompts are tested case-insensitively against the last 1000
buffered characters (first match wins); otherwise the whole buffer is
rescanned for URLs. -/
def processChunk (s : Session) (decoded : String) : Session :=
  if success_keywords.any (fun kw => pyContains (pyLower decoded) (pyLower kw)) then
    { s with output_buffer := s.output_buffer ++ decoded,
             status := "ok", completed := true, needs_input := false }
  else
    match input_prompts.find?
        (fun p =>
          pyContains (pyLower (pyLastSlice 1000 (s.output_buffer ++ decoded))) (pyLower p)) with
    | some p =>
      { s with output_buffer := s.output_buffer ++ decoded,
               needs_input := true, input_prompt := p, status := "needs_input" }
    | none =>
      (findUrls (s.output_buffer ++ decoded)).foldl updateUrlStep
        { s with output_buffer := s.output_buffer ++ decoded }

/-- One reader-loop delivery of a chunk: the loop body runs only while
`not self.completed` (line 602). -/
def readStep (s : Session) (chunk : String) : Session :=
  if s.completed then s else processChunk s chunk

/-- Feeding a sequence of chunks to the reader loop. -/
def runChunks (s : Session) (chunks : List String) : Session :=
  chunks.foldl readStep s

/-- The child-exit branch of the reader loop (lines 605-618): `waitpid`
reaped the child. `wifexited` is `os.WIFEXITED(exit_status)`, `code` the
exit code when it did. -/
def processExit (s : Session) (wifexited : Bool) (code : Nat) : Session :=
  let s1 := { s with completed := true }
  if wifexited then
    if code = 0 then
      if s1.status ≠ "ok" then { s1 with status := "ok" } else s1
    else
      if s1.status ≠ "ok" ∧ s1.status ≠ "error" then
        { s1 with status := "error", error := some ("进程退出码: " ++ toString code) }
      else s1
  else s1

/-- How far `InteractiveOAuthSession.start` (lines 494-541) got before an
exception, if any: `spawned` is the success path; `failBeforeOpen` is an
exception inside `pty.openpty` itself; `failAfterOpen` is an exception
after the terminal pair was opened (`ioctl`/`fork`), with both
descriptors already assigned. -/
inductive StartOutcome where
  | spawned (masterFd pid : Nat)
  | failBeforeOpen (msg : String)
  | failAfterOpen (masterFd slaveFd : Nat) (msg : String)
deriving DecidableEq

/-- `InteractiveOAuthSession.start`: on success the parent closes the
slave, sets status `running` and returns `true`; the `except` clause
(lines 538-541) only records status `error` and the message, closes
nothing, and returns `false`. -/
def startSession (s : Session) : StartOutcome → Session × Bool
  | .spawned fd pid =>
    ({ s with master_fd := some fd, slave_fd := none, pid := some pid, status := "running" },
     true)
  | .failBeforeOpen msg =>
    ({ s with status := "error", error := some msg }, false)
  | .failAfterOpen fd sfd msg =>
    ({ s with master_fd := some fd, slave_fd := some sfd, status := "error", error := some msg },
     false)

/-- Python `s.endswith(suffix)`. -/
def pyEndsWith (s sfx : String) : Bool :=
  List.isPrefixOf sfx.toList.reverse s.toList.reverse

/-- `send_input` (lines 695-715). Returns the new state and `some written`
(the text handed to `os.write`) on success, or `none` on the guard
rejection (master descriptor gone, or already completed; lines 697-698),
which touches no field. `os.write` on the open master is modelled as
succeeding. -/
def send_input (s : Session) (text : String) : Session × Option String :=
  if s.master_fd = none ∨ s.completed = true then (s, none)
  else
    let written := if pyEndsWith text "\n" then text else text ++ "\n"
    ({ s with needs_input := false, input_prompt := "", status := "running" }, some written)

/-- `_cleanup` (lines 754-761): close the master descriptor if still open
and forget it; the second component lists the descriptors actually
closed by this call. -/
def cleanup (s : Session) : Session × List Nat :=
  match s.master_fd with
  | some fd => ({ s with master_fd := none }, [fd])
  | none => (s, [])

/-- `os.kill(pid, sig)`: delivers the signal when the process exists and
raises `ProcessLookupError` (`Except.error`) otherwise. -/
def osKill (alive : Bool) : Except Unit Unit :=
  if alive then .ok () else .error ()

/-- `terminate` (lines 735-752): mark completed; when a pid is known, send
SIGTERM (15), sleep 0.3 s, probe with signal 0 and send SIGKILL (9) only
when the child is still alive; `ProcessLookupError` at either point is
swallowed. `_cleanup` always runs afterwards. `aliveAtTerm` /
`aliveAtCheck` say whether the child exists when SIGTERM is sent / at
the probe after the grace sleep. Returns (state, signals sent as
(pid, signo) pairs, descriptors closed). -/
def terminate (s : Session) (aliveAtTerm aliveAtCheck : Bool) :
    Session × List (Nat × Nat) × List Nat :=
  let s1 := { s with completed := true }
  let sent : List (Nat × Nat) :=
    match s1.pid with
    | none => []
    | some pid =>
      match osKill aliveAtTerm with
      | .error () => []
      | .ok () =>
        match osKill aliveAtCheck with
        | .error () => [(pid, 15)]
        | .ok () => [(pid, 15), (pid, 9)]
  let (s2, closed) := cleanup s1
  (s2, sent, closed)

/-- One observable action on a session. Reader-loop events (`chunk`,
`exited`) are processed only while `not self.completed` (line 602);
`input` and `cancel` can arrive at any time. -/
inductive SessionEvent where
  | chunk (text : String)
  | exited (wifexited : Bool) (code : Nat)
  | input (text : String)
  | cancel (aliveAtTerm aliveAtCheck : Bool)
deriving DecidableEq

def sessionStep (s : Session) : SessionEvent → Session
  | .chunk t => if s.completed then s else processChunk s t
  | .exited w c => if s.completed then s else processExit s w c
  | .input t => (send_input s t).1
  | .cancel a b => (terminate s a b).1

def runEvents (s : Session) (evs : List SessionEvent) : Session :=
  evs.foldl sessionStep s

/-- The snapshot returned by `get_status` (lines 722-733). -/
structure StatusSnapshot where
  status : String
  url : Option String
  error : Option String
  output : String
  needs_input : Bool
  input_prompt : String
  completed : Bool
deriving DecidableEq

def get_status (s : Session) : StatusSnapshot :=
  { status := s.status
    url := s.url
    error := s.error
    output := pyLastSlice 2000 s.output_buffer
    needs_input := s.needs_input
    input_prompt := s.input_prompt
    completed := s.completed }

/-- The `oauth_sessions` dict, as an association list keyed by session id. -/
abbrev Registry := List (String × Session)

def regGet (r : Registry) (id : String) : Option Session :=
  (r.find? (fun p => p.1 == id)).map (fun p => p.2)

/-- `oauth_sessions.pop(id)`. -/
def regRemove (r : Registry) (id : String) : Registry :=
  r.filter (fun p => !(p.1 == id))

/-- In-place mutation of the stored session object. -/
def regSet (r : Registry) (id : String) (s : Session) : Registry :=
  r.map (fun p => if p.1 == id then (p.1, s) else p)

inductive StartResp where
  | startError (message : String) (state : String)
  | started (state : String) (url : Option String)
deriving DecidableEq

/-- `api_start_oauth` (lines 810-895), restricted to the session-creating
path (provider known, binary present): the session object is placed in
`oauth_sessions` BEFORE `start()` is attempted (lines 841-842) and is not
removed when the start fails (lines 845-849). The sleeps that let the
child print a URL deliver no output in this model. -/
def api_start_oauth (reg : Registry) (session_id provider : String) (o : StartOutcome) :
    Registry × StartResp :=
  let session := mkSession session_id provider
  let (s2, ok) := startSession session o
  let reg2 := (session_id, s2) :: reg
  if ok then (reg2, .started session_id s2.url)
  else (reg2, .startError ("启动 OAuth 流程失败: " ++ (s2.error.getD "")) session_id)

inductive StatusResp where
  | missingState
  | notFound
  | okDone (output : String)
  | errorResp (error : String) (output : String)
  | needsInput (input_prompt : String) (output : String) (url : Option String)
  | wait (detail : String) (output : String) (url : Option String)
      (needs_input : Bool) (input_prompt : String)
  | waitOther (detail : String) (output : String)
deriving DecidableEq

/-- `api_oauth_status` (lines 898-970) on `InteractiveOAuthSession`
entries. When the snapshot status is `ok` the handler pops the session
from the registry and terminates it (lines 931-937); the third component
is the terminated session's final state when that happened. -/
def api_oauth_status (reg : Registry) (state : String) (aliveAtTerm aliveAtCheck : Bool) :
    Registry × StatusResp × Option Session :=
  if state = "" then (reg, .missingState, none)
  else
    match regGet reg state with
    | none => (reg, .notFound, none)
    | some sess =>
      let info := get_status sess
      if info.status = "ok" then
        let (t, _, _) := terminate sess aliveAtTerm aliveAtCheck
        (regRemove reg state, .okDone (pyLastSlice 500 info.output), some t)
      else if info.status = "error" then
        (reg, .errorResp (info.error.getD "认证失败") (pyLastSlice 500 info.output), none)
      else if info.status = "needs_input" then
        (reg, .needsInput info.input_prompt (pyLastSlice 1000 info.output) info.url, none)
      else if info.status = "waiting_url" ∨ info.status = "waiting_callback" ∨
          info.status = "running" then
        (reg, .wait info.status (pyLastSlice 500 info.output) info.url
          info.needs_input info.input_prompt, none)
      else (reg, StatusResp.waitOther info.status (pyLastSlice 500 info.output), none)

inductive OutputResp where
  | missingState
  | notFound
  | ok (output : String) (state : String)
deriving DecidableEq

/-- `api_oauth_output` (lines 973-994). -/
def api_oauth_output (reg : Registry) (state : String) : OutputResp :=
  if state = "" then .missingState
  else
    match regGet reg state with
    | none => .notFound
    | some sess => .ok sess.output_buffer state

inductive InputResp where
  | missingState
  | notFound
  | ok (state : String)
  | sendFailed (message : String) (state : String)
deriving DecidableEq

/-- `api_oauth_input` (lines 997-1029). -/
def api_oauth_input (reg : Registry) (state : String) (user_input : String) :
    Registry × InputResp :=
  if state = "" then (reg, .missingState)
  else
    match regGet reg state with
    | none => (reg, .notFound)
    | some sess =>
      let (s2, written) := send_input sess user_input
      match written with
      | some _ => (regSet reg state s2, .ok state)
      | none =>
        (regSet reg state s2,
         .sendFailed ("发送输入失败: " ++ (s2.error.getD "未知错误")) state)

inductive CancelResp where
  | missingState
  | cancelled
deriving DecidableEq

/-- `api_cancel_oauth` (lines 1032-1051): pop (no-op when absent),
terminate when present, always report success. -/
def api_cancel_oauth (reg : Registry) (state : String) (aliveAtTerm aliveAtCheck : Bool) :
    Registry × CancelResp × Option Session :=
  if state = "" then (reg, .missingState, none)
  else
    match regGet reg state with
    | none => (regRemove reg state, .cancelled, none)
    | some sess =>
      let (t, _, _) := terminate sess aliveAtTerm aliveAtCheck
      (regRemove reg state, .cancelled, some t)

/-- A session as it stands right after a successful `start`, used by the
concrete scenarios below: master descriptor 3, child pid 4242, status
`running`. -/
def startedSession : Session :=
  (startSession (mkSession "s1" "gemini") (.spawned 3 4242)).1

/-- Auxiliary invariant: a terminal status implies the completed flag. -/
def TerminalCompleted (s : Session) : Prop :=
  (s.status = "ok" ∨ s.status = "error") → s.completed = true

end CPA

namespace CPA

lemma runChunks_completed (s : Session) (l : List String) (h : s.completed = true) :
    runChunks s l = s := by
  induction l with
  | nil => rfl
  | cons c l ih =>
    show runChunks (readStep s c) l = s
    rw [readStep, if_pos h]
    exact ih

/-- Claim C8: the chunk sequence "Visit http://ex" then
"ample.com/oauth?state=1 to continue" — with "oauth" among the OAuth
domain fragments — yields final detected URL exactly
"http://example.com/oauth?state=1": URL detection rescans the whole
accumulated output on each read and keeps the longest matching URL. -/
theorem claim_C8_url_reassembly :
    "oauth" ∈ oauth_domains
    ∧ (runChunks startedSession
        ["Visit http://ex", "ample.com/oauth?state=1 to continue"]).url
      = some "http://example.com/oauth?state=1" := by
  decide

/-- Claim C3 counterexample: feeding "Enter project ID [proj-1] or ALL:"
does set status `needs_input`, but the recorded prompt is NOT the
fragment "or ALL:" — `input_prompts` is scanned in order and
"Enter project ID" matches first. -/
theorem claim_C3_counterexample :
    (runChunks startedSession ["Enter project ID [proj-1] or ALL:"]).status = "needs_input"
    ∧ (runChunks startedSession ["Enter project ID [proj-1] or ALL:"]).input_prompt
        ≠ "or ALL:" := by
  decide

/-- Claim C3 (amended): feeding "Enter project ID [proj-1] or ALL:" sets
status `needs_input` and records "Enter project ID" — the first matching
fragment in the ordered prompt list (both "Enter project ID" and
"or ALL:" occur, but first match wins); a subsequent `send_input "ALL"`
clears `needs_input`/`input_prompt`, restores status `running`, and
writes "ALL" plus a newline to the master. -/
theorem claim_C3_prompt_scenario :
    (runChunks startedSession ["Enter project ID [proj-1] or ALL:"]).status = "needs_input"
    ∧ (runChunks startedSession ["Enter project ID [proj-1] or ALL:"]).needs_input = true
    ∧ (runChunks startedSession ["Enter project ID [proj-1] or ALL:"]).input_prompt
        = "Enter project ID"
    ∧ (send_input (runChunks startedSession ["Enter project ID [proj-1] or ALL:"]) "ALL").1.status
        = "running"
    ∧ (send_input (runChunks startedSession ["Enter project ID [proj-1] or ALL:"]) "ALL").1.needs_input
        = false
    ∧ (send_input (runChunks startedSession ["Enter project ID [proj-1] or ALL:"]) "ALL").1.input_prompt
        = ""
    ∧ (send_input (runChunks startedSession ["Enter project ID [proj-1] or ALL:"]) "ALL").2
        = some "ALL\n" := by
  decide

/-- Claim C10: success-phrase and prompt matching are case-insensitive —
the all-caps chunk "AUTHENTICATION SAVED" marks the session ok and the
all-caps "ENTER PROJECT ID" triggers `needs_input` — while URL
domain-fragment filtering is case-sensitive substring matching on the
raw candidate: the same URL is kept when it contains lowercase "oauth"
but dropped when it contains uppercase "OAUTH". -/
theorem claim_C10_case_sensitivity :
    (runChunks startedSession ["AUTHENTICATION SAVED"]).status = "ok"
    ∧ (runChunks startedSession ["AUTHENTICATION SAVED"]).completed = true
    ∧ (runChunks startedSession ["please ENTER PROJECT ID now"]).status = "needs_input"
    ∧ (runChunks startedSession ["please ENTER PROJECT ID now"]).input_prompt
        = "Enter project ID"
    ∧ (runChunks startedSession ["Visit http://example.com/oauth?a=1 now"]).url
        = some "http://example.com/oauth?a=1"
    ∧ (runChunks startedSession ["Visit http://example.com/OAUTH?a=1 now"]).url = none := by
  decide

/-- Claim C1 counterexample: classification is not split-invariant — the
success phrase "Authentication saved" fed as one chunk marks the session
ok and completed, but the same bytes split as "Authentication sa" ++
"ved" across two reads leave it running and uncompleted, because success
keywords are only tested against the newest chunk. -/
theorem claim_C1_counterexample :
    (runChunks startedSession ["Authentication saved"]).status = "ok"
    ∧ (runChunks startedSession ["Authentication saved"]).completed = true
    ∧ (runChunks startedSession ["Authentication sa", "ved"]).status = "running"
    ∧ (runChunks startedSession ["Authentication sa", "ved"]).completed = false := by
  decide

/-- Claim C1 (amended): split-invariance fails in general (see the
counterexample), because success detection is chunk-local. What does
hold: whenever a success keyword occurs (case-insensitively) wholly
inside one delivered chunk, the not-yet-completed session is marked ok
and completed on that read, and any further chunks change nothing. -/
theorem claim_C1_chunk_local_success (s : Session) (c kw : String) (rest : List String)
    (hc : s.completed = false) (hkw : kw ∈ success_keywords)
    (hin : pyContains (pyLower c) (pyLower kw) = true) :
    (readStep s c).status = "ok" ∧ (readStep s c).completed = true
    ∧ runChunks (readStep s c) rest = readStep s c := by
  have hany : success_keywords.any (fun k => pyContains (pyLower c) (pyLower k)) = true :=
    List.any_eq_true.mpr ⟨kw, hkw, hin⟩
  have hstep : readStep s c = processChunk s c := by
    rw [readStep, if_neg (by simp [hc])]
  have hok : (processChunk s c).status = "ok" ∧ (processChunk s c).completed = true := by
    unfold processChunk
    rw [hany]
    exact ⟨rfl, rfl⟩
  refine ⟨hstep ▸ hok.1, hstep ▸ hok.2, ?_⟩
  exact runChunks_completed _ _ (hstep ▸ hok.2)

/-- Witness for `claim_C1_chunk_local_success` at a concrete input. -/
theorem claim_C1_chunk_local_success_witness :
    (readStep startedSession "CLI says: config saved to ~/.auth.json").status = "ok"
    ∧ (readStep startedSession "CLI says: config saved to ~/.auth.json").completed = true
    ∧ runChunks (readStep startedSession "CLI says: config saved to ~/.auth.json") ["more"]
        = readStep startedSession "CLI says: config saved to ~/.auth.json" :=
  claim_C1_chunk_local_success startedSession "CLI says: config saved to ~/.auth.json"
    "saved to" ["more"] (by decide) (by decide) (by decide)

/-- Claim C6: `send_input` accepts any text (the empty string means "press
enter"): with the master open and the session not completed it writes the
text with a trailing newline appended exactly when one is absent, clears
`needs_input`/`input_prompt` and sets status `running`; on a completed
session or a gone master descriptor it reports failure and mutates no
session state. -/
theorem claim_C6_input_delivery (s s2 : Session) (t t2 : String) (fd : Nat)
    (hfd : s.master_fd = some fd) (hc : s.completed = false)
    (h2 : s2.completed = true ∨ s2.master_fd = none) :
    (send_input s t).1
      = { s with needs_input := false, input_prompt := "", status := "running" }
    ∧ (pyEndsWith t "\n" = true → (send_input s t).2 = some t)
    ∧ (pyEndsWith t "\n" = false → (send_input s t).2 = some (t ++ "\n"))
    ∧ send_input s2 t2 = (s2, none) := by
  have hguard : ¬(s.master_fd = none ∨ s.completed = true) := by
    rw [hfd, hc]; simp
  have hguard2 : s2.master_fd = none ∨ s2.completed = true := h2.symm
  refine ⟨?_, ?_, ?_, ?_⟩
  · rw [send_input, if_neg hguard]
  · intro h; rw [send_input, if_neg hguard]; simp [h]
  · intro h; rw [send_input, if_neg hguard]; simp [h]
  · rw [send_input, if_pos hguard2]

/-- Witness for `claim_C6_input_delivery` at concrete inputs. -/
theorem claim_C6_input_delivery_witness :
    (send_input startedSession "").1
      = { startedSession with needs_input := false, input_prompt := "", status := "running" }
    ∧ (pyEndsWith "" "\n" = true → (send_input startedSession "").2 = some "")
    ∧ (pyEndsWith "" "\n" = false → (send_input startedSession "").2 = some ("" ++ "\n"))
    ∧ send_input { startedSession with completed := true } "x"
        = ({ startedSession with completed := true }, none) :=
  claim_C6_input_delivery startedSession { startedSession with completed := true } "" "x" 3
    (by decide) (by decide) (Or.inl (by decide))

/-- Claim C7: `terminate` marks completed immediately; with a known pid it
sends SIGTERM, and after the bounded grace wait sends SIGKILL only if
the liveness probe still finds the child; a vanished child (process
lookup failure at SIGTERM time) yields no signals and is not an error;
with no pid no signals are sent; the master-descriptor cleanup runs in
every case and closes the descriptor exactly once — a second terminate
closes nothing — so cancelling a session whose child already exited is
a no-op that still succeeds. -/
theorem claim_C7_termination (s s3 : Session) (p fd : Nat) (a b a2 b2 a3 b3 : Bool)
    (hp : s.pid = some p) (hfd : s.master_fd = some fd) (hp3 : s3.pid = none) :
    (terminate s a b).1.completed = true
    ∧ (terminate s a b).2.1
        = (if a then (p, 15) :: (if b then [(p, 9)] else []) else [])
    ∧ (terminate s a b).2.2 = [fd]
    ∧ (terminate s a b).1.master_fd = none
    ∧ (terminate (terminate s a b).1 a2 b2).2.2 = []
    ∧ (a = false → (terminate s a b).2.1 = [])
    ∧ (terminate s3 a3 b3).2.1 = [] := by
  have hterm :
      terminate s a b
        = ({ s with completed := true, master_fd := none },
           (if a then (p, 15) :: (if b then [(p, 9)] else []) else []), [fd]) := by
    rw [terminate]
    simp only [hp, hfd, cleanup, osKill]
    cases a <;> cases b <;> rfl
  refine ⟨?_, ?_, ?_, ?_, ?_, ?_, ?_⟩
  · rw [hterm]
  · rw [hterm]
  · rw [hterm]
  · rw [hterm]
  · rw [hterm]
    rfl
  · intro ha; rw [hterm, ha]; rfl
  · rw [terminate]
    simp only [hp3, cleanup]

/-- Witness for `claim_C7_termination` at concrete inputs. -/
theorem claim_C7_termination_witness :
    (terminate startedSession true true).1.completed = true
    ∧ (terminate startedSession true true).2.1
        = (if true then (4242, 15) :: (if true then [(4242, 9)] else []) else [])
    ∧ (terminate startedSession true true).2.2 = [3]
    ∧ (terminate startedSession true true).1.master_fd = none
    ∧ (terminate (terminate startedSession true true).1 false false).2.2 = []
    ∧ (true = false → (terminate startedSession true true).2.1 = [])
    ∧ (terminate (mkSession "s0" "qwen") false false).2.1 = [] :=
  claim_C7_termination startedSession (mkSession "s0" "qwen") 4242 3 true true false false
    false false (by decide) (by decide) (by decide)

/-- Claim C2 counterexample: after a spawn failure that follows a
successful terminal allocation, both descriptors are still recorded
open (nothing closed them) and the failed attempt's session id IS
reachable through the status lookup — it answers with an error response,
not not-found. -/
theorem claim_C2_counterexample :
    ((regGet (api_start_oauth [] "ab12cd34" "gemini"
        (.failAfterOpen 3 4 "fork failed")).1 "ab12cd34").map Session.master_fd
      = some (some 3))
    ∧ ((regGet (api_start_oauth [] "ab12cd34" "gemini"
        (.failAfterOpen 3 4 "fork failed")).1 "ab12cd34").map Session.slave_fd
      = some (some 4))
    ∧ (api_oauth_status (api_start_oauth [] "ab12cd34" "gemini"
        (.failAfterOpen 3 4 "fork failed")).1 "ab12cd34" false false).2.1
      ≠ StatusResp.notFound := by
  decide

lemma api_oauth_status_on_error (reg : Registry) (id : String) (sess : Session)
    (a b : Bool) (hid : id ≠ "") (hget : regGet reg id = some sess)
    (hst : sess.status = "error") :
    api_oauth_status reg id a b
      = (reg,
         .errorResp (sess.error.getD "认证失败")
           (pyLastSlice 500 (pyLastSlice 2000 sess.output_buffer)),
         none) := by
  simp only [api_oauth_status, if_neg hid, hget, get_status, hst]
  simp

/-- Claim C2 (amended): a start that fails after the terminal pair was
opened is reported once at creation with its human-readable cause, but
the intermediate descriptors are NOT closed (master and slave stay
recorded open) and the session IS registered: the failed id resolves
via the status lookup to an error response carrying the cause. -/
theorem claim_C2_failed_start (reg : Registry) (id prov : String) (fd sfd : Nat)
    (msg : String) (hid : id ≠ "") :
    (api_start_oauth reg id prov (.failAfterOpen fd sfd msg)).2
      = .startError ("启动 OAuth 流程失败: " ++ msg) id
    ∧ regGet (api_start_oauth reg id prov (.failAfterOpen fd sfd msg)).1 id
      = some { mkSession id prov with
                 master_fd := some fd, slave_fd := some sfd,
                 status := "error", error := some msg }
    ∧ (api_oauth_status (api_start_oauth reg id prov
        (.failAfterOpen fd sfd msg)).1 id false false).2.1
      = .errorResp msg "" := by
  have hreg : regGet (api_start_oauth reg id prov (.failAfterOpen fd sfd msg)).1 id
      = some { mkSession id prov with
                 master_fd := some fd, slave_fd := some sfd,
                 status := "error", error := some msg } := by
    simp [api_start_oauth, startSession, regGet, List.find?]
  refine ⟨rfl, hreg, ?_⟩
  rw [api_oauth_status_on_error _ _ _ false false hid hreg rfl]
  simp [mkSession, pyLastSlice]

/-- Witness for `claim_C2_failed_start` at concrete inputs. -/
theorem claim_C2_failed_start_witness :
    (api_start_oauth [] "ab12cd34" "gemini" (.failAfterOpen 3 4 "boom")).2
      = .startError ("启动 OAuth 流程失败: " ++ "boom") "ab12cd34"
    ∧ regGet (api_start_oauth [] "ab12cd34" "gemini" (.failAfterOpen 3 4 "boom")).1 "ab12cd34"
      = some { mkSession "ab12cd34" "gemini" with
                 master_fd := some 3, slave_fd := some 4,
                 status := "error", error := some "boom" }
    ∧ (api_oauth_status (api_start_oauth [] "ab12cd34" "gemini"
        (.failAfterOpen 3 4 "boom")).1 "ab12cd34" false false).2.1
      = .errorResp "boom" "" :=
  claim_C2_failed_start [] "ab12cd34" "gemini" 3 4 "boom" (by decide)

lemma regGet_regRemove_self (r : Registry) (id : String) :
    regGet (regRemove r id) id = none := by
  induction r with
  | nil => rfl
  | cons p r ih =>
    by_cases h : p.1 == id
    · simp [regRemove, regGet, List.filter_cons, h] at ih ⊢
    · simp [regRemove, regGet, List.filter_cons, List.find?_cons, h] at ih ⊢

lemma terminate_fst (s : Session) (a b : Bool) :
    (terminate s a b).1 = (cleanup { s with completed := true }).1 := rfl

lemma cleanup_completed (s : Session) : (cleanup s).1.completed = s.completed := by
  cases h : s.master_fd <;> simp [cleanup, h]

lemma cleanup_master_fd (s : Session) : (cleanup s).1.master_fd = none := by
  cases h : s.master_fd <;> simp [cleanup, h]

/-- Claim C9: polling the status of a session whose status is ok removes it
from the registry and terminates it (completed set, master closed); every
subsequent status, full-output, or input call with the same id answers
not-found. -/
theorem claim_C9_ok_poll_destructive (reg : Registry) (id : String) (sess : Session)
    (a b a2 b2 : Bool) (t2 : String)
    (hid : id ≠ "") (hget : regGet reg id = some sess) (hok : sess.status = "ok") :
    (∃ out, (api_oauth_status reg id a b).2.1 = StatusResp.okDone out)
    ∧ (api_oauth_status reg id a b).2.2 = some (terminate sess a b).1
    ∧ (terminate sess a b).1.completed = true
    ∧ (terminate sess a b).1.master_fd = none
    ∧ regGet (api_oauth_status reg id a b).1 id = none
    ∧ api_oauth_status (api_oauth_status reg id a b).1 id a2 b2
        = ((api_oauth_status reg id a b).1, StatusResp.notFound, none)
    ∧ api_oauth_output (api_oauth_status reg id a b).1 id = OutputResp.notFound
    ∧ api_oauth_input (api_oauth_status reg id a b).1 id t2
        = ((api_oauth_status reg id a b).1, InputResp.notFound) := by
  have hmain : api_oauth_status reg id a b
      = (regRemove reg id,
         StatusResp.okDone (pyLastSlice 500 (pyLastSlice 2000 sess.output_buffer)),
         some (terminate sess a b).1) := by
    simp only [api_oauth_status, if_neg hid, hget, get_status, hok]
    simp
  have hgone : regGet (api_oauth_status reg id a b).1 id = none := by
    rw [hmain]
    exact regGet_regRemove_self reg id
  refine ⟨⟨_, by rw [hmain]⟩, by rw [hmain], ?_, ?_, hgone, ?_, ?_, ?_⟩
  · rw [terminate_fst]
    simpa using cleanup_completed { sess with completed := true }
  · rw [terminate_fst]
    exact cleanup_master_fd { sess with completed := true }
  · rw [hmain]
    simp [api_oauth_status, if_neg hid, regGet_regRemove_self]
  · rw [hmain]
    simp [api_oauth_output, if_neg hid, regGet_regRemove_self]
  · rw [hmain]
    simp [api_oauth_input, if_neg hid, regGet_regRemove_self]

/-- Witness for `claim_C9_ok_poll_destructive` at concrete inputs. -/
theorem claim_C9_ok_poll_destructive_witness :
    (∃ out, (api_oauth_status [("ab", { startedSession with status := "ok" })] "ab"
        false false).2.1 = StatusResp.okDone out)
    ∧ (api_oauth_status [("ab", { startedSession with status := "ok" })] "ab"
        false false).2.2
      = some (terminate { startedSession with status := "ok" } false false).1
    ∧ (terminate { startedSession with status := "ok" } false false).1.completed = true
    ∧ (terminate { startedSession with status := "ok" } false false).1.master_fd = none
    ∧ regGet (api_oauth_status [("ab", { startedSession with status := "ok" })] "ab"
        false false).1 "ab" = none
    ∧ api_oauth_status (api_oauth_status [("ab", { startedSession with status := "ok" })]
        "ab" false false).1 "ab" false false
      = ((api_oauth_status [("ab", { startedSession with status := "ok" })] "ab"
          false false).1, StatusResp.notFound, none)
    ∧ api_oauth_output (api_oauth_status [("ab", { startedSession with status := "ok" })]
        "ab" false false).1 "ab" = OutputResp.notFound
    ∧ api_oauth_input (api_oauth_status [("ab", { startedSession with status := "ok" })]
        "ab" false false).1 "ab" "x"
      = ((api_oauth_status [("ab", { startedSession with status := "ok" })] "ab"
          false false).1, InputResp.notFound) :=
  claim_C9_ok_poll_destructive [("ab", { startedSession with status := "ok" })] "ab"
    { startedSession with status := "ok" } false false false false "x"
    (by decide) (by decide) (by decide)

lemma urlMono_trans {u u1 u2 : String} (h1 : u1 = u ∨ u.length < u1.length)
    (h2 : u2 = u1 ∨ u1.length < u2.length) : u2 = u ∨ u.length < u2.length := by
  cases h1 with
  | inl e => subst e; exact h2
  | inr l1 =>
    cases h2 with
    | inl e => subst e; exact Or.inr l1
    | inr l2 => exact Or.inr (l1.trans l2)

lemma updateUrlStep_mono (st : Session) (m u : String) (h : st.url = some u) :
    ∃ u2, (updateUrlStep st m).url = some u2 ∧ (u2 = u ∨ u.length < u2.length) := by
  unfold updateUrlStep
  split
  · split
    next heq =>
      rw [h] at heq
      simp at heq
      exact ⟨rstripParen m, rfl, Or.inr heq⟩
    next heq => exact ⟨u, h, Or.inl rfl⟩
  · exact ⟨u, h, Or.inl rfl⟩

lemma foldUrl_mono (ms : List String) (st : Session) (u : String) (h : st.url = some u) :
    ∃ u2, (ms.foldl updateUrlStep st).url = some u2 ∧ (u2 = u ∨ u.length < u2.length) := by
  induction ms generalizing st u with
  | nil => exact ⟨u, h, Or.inl rfl⟩
  | cons m ms ih =>
    obtain ⟨u1, h1, d1⟩ := updateUrlStep_mono st m u h
    obtain ⟨u2, h2, d2⟩ := ih (updateUrlStep st m) u1 h1
    exact ⟨u2, h2, urlMono_trans d1 d2⟩

lemma processChunk_url_mono (s : Session) (c u : String) (h : s.url = some u) :
    ∃ u2, (processChunk s c).url = some u2 ∧ (u2 = u ∨ u.length < u2.length) := by
  unfold processChunk
  split
  · exact ⟨u, h, Or.inl rfl⟩
  · split
    · exact ⟨u, h, Or.inl rfl⟩
    · exact foldUrl_mono _ _ u h

lemma processExit_url (s : Session) (w : Bool) (k : Nat) :
    (processExit s w k).url = s.url := by
  simp only [processExit]
  split_ifs <;> rfl

lemma send_input_url (s : Session) (t : String) : (send_input s t).1.url = s.url := by
  unfold send_input
  repeat' split
  all_goals rfl

lemma terminate_url (s : Session) (a b : Bool) : (terminate s a b).1.url = s.url := by
  rw [terminate_fst]
  cases h : s.master_fd <;> simp [cleanup, h]

lemma sessionStep_url_mono (s : Session) (e : SessionEvent) (u : String) (h : s.url = some u) :
    ∃ u2, (sessionStep s e).url = some u2 ∧ (u2 = u ∨ u.length < u2.length) := by
  cases e with
  | chunk t =>
    by_cases hc : s.completed = true
    · exact ⟨u, by simp [sessionStep, hc, h], Or.inl rfl⟩
    · have he : sessionStep s (.chunk t) = processChunk s t := by simp [sessionStep, hc]
      rw [he]
      exact processChunk_url_mono s t u h
  | exited w k =>
    by_cases hc : s.completed = true
    · exact ⟨u, by simp [sessionStep, hc, h], Or.inl rfl⟩
    · have he : sessionStep s (.exited w k) = processExit s w k := by simp [sessionStep, hc]
      rw [he, processExit_url]
      exact ⟨u, h, Or.inl rfl⟩
  | input t =>
    refine ⟨u, ?_, Or.inl rfl⟩
    show (send_input s t).1.url = some u
    rw [send_input_url]
    exact h
  | cancel a b =>
    refine ⟨u, ?_, Or.inl rfl⟩
    show (terminate s a b).1.url = some u
    rw [terminate_url]
    exact h

/-- Claim C4: once the detected URL has been set, after any further session
activity (output chunks, child exit, input delivery, cancellation) it is
still set — never cleared — and every change replaces it with a strictly
longer match. -/
theorem claim_C4_url_monotonic (s : Session) (u : String) (evs : List SessionEvent)
    (h : s.url = some u) :
    ∃ u2, (runEvents s evs).url = some u2 ∧ (u2 = u ∨ u.length < u2.length) := by
  induction evs generalizing s u with
  | nil => exact ⟨u, h, Or.inl rfl⟩
  | cons e evs ih =>
    obtain ⟨u1, h1, d1⟩ := sessionStep_url_mono s e u h
    obtain ⟨u2, h2, d2⟩ := ih (sessionStep s e) u1 h1
    exact ⟨u2, h2, urlMono_trans d1 d2⟩

/-- Witness for `claim_C4_url_monotonic` at a concrete input. -/
theorem claim_C4_url_monotonic_witness :
    ∃ u2, (runEvents { startedSession with url := some "http://a.io/oauth" }
        [.chunk "Visit http://a.io/oauth2/go now"]).url = some u2
      ∧ (u2 = "http://a.io/oauth" ∨ ("http://a.io/oauth").length < u2.length) :=
  claim_C4_url_monotonic { startedSession with url := some "http://a.io/oauth" }
    "http://a.io/oauth" [.chunk "Visit http://a.io/oauth2/go now"] (by decide)

lemma processExit_completed (s : Session) (w : Bool) (k : Nat) :
    (processExit s w k).completed = true := by
  simp only [processExit]
  split_ifs <;> rfl

lemma terminate_completed (s : Session) (a b : Bool) :
    (terminate s a b).1.completed = true := by
  rw [terminate_fst]
  simpa using cleanup_completed { s with completed := true }

lemma foldUrl_status (ms : List String) (st : Session) :
    (ms.foldl updateUrlStep st).status = st.status
    ∨ (ms.foldl updateUrlStep st).status = "waiting_callback" := by
  induction ms generalizing st with
  | nil => exact Or.inl rfl
  | cons m ms ih =>
    have hstep : (updateUrlStep st m).status = st.status
        ∨ (updateUrlStep st m).status = "waiting_callback" := by
      unfold updateUrlStep
      split_ifs
      · exact Or.inl rfl
      · exact Or.inr rfl
      · exact Or.inl rfl
      · exact Or.inl rfl
    rcases ih (updateUrlStep st m) with h1 | h1
    · rw [List.foldl_cons, h1]
      exact hstep
    · exact Or.inr (by rw [List.foldl_cons, h1])

lemma sessionStep_TC (s : Session) (e : SessionEvent) (h : TerminalCompleted s) :
    TerminalCompleted (sessionStep s e) := by
  cases e with
  | chunk t =>
    by_cases hc : s.completed = true
    · simpa [sessionStep, hc] using h
    · have hnb : s.completed = false := by simpa using hc
      have hns : ¬(s.status = "ok" ∨ s.status = "error") := by
        intro hx
        rw [h hx] at hnb
        exact Bool.noConfusion hnb
      have he : sessionStep s (.chunk t) = processChunk s t := by
        simp [sessionStep, hnb]
      rw [he]
      unfold processChunk
      split
      · intro _
        rfl
      · split
        · intro hterm
          exact absurd hterm (by simp)
        · intro hterm
          exfalso
          rcases foldUrl_status (findUrls (s.output_buffer ++ t))
              { s with output_buffer := s.output_buffer ++ t } with hst | hst
          · rw [hst] at hterm
            exact hns hterm
          · rw [hst] at hterm
            rcases hterm with hterm | hterm <;> exact absurd hterm (by decide)
  | exited w k =>
    by_cases hc : s.completed = true
    · simpa [sessionStep, hc] using h
    · have hnb : s.completed = false := by simpa using hc
      have he : sessionStep s (.exited w k) = processExit s w k := by
        simp [sessionStep, hnb]
      rw [he]
      intro _
      exact processExit_completed s w k
  | input t =>
    show TerminalCompleted (send_input s t).1
    unfold send_input
    split
    · exact h
    · intro hterm
      rcases hterm with hterm | hterm <;> exact absurd hterm (by simp)
  | cancel a b =>
    intro _
    exact terminate_completed s a b

lemma runEvents_TC (s : Session) (evs : List SessionEvent) (h : TerminalCompleted s) :
    TerminalCompleted (runEvents s evs) := by
  induction evs generalizing s with
  | nil => exact h
  | cons e evs ih => exact ih (sessionStep s e) (sessionStep_TC s e h)

/-- Claim C5: for every session started successfully and driven by any
sequence of events, once its status has reached ok or error, processing
any further output chunks leaves the status unchanged (the reader loop
stops once `completed` is set, and every path that makes the status
terminal also sets `completed`). -/
theorem claim_C5_terminal_monotonic (id prov : String) (fd pid : Nat)
    (evs : List SessionEvent) (chunks : List String)
    (h : (runEvents (startSession (mkSession id prov) (.spawned fd pid)).1 evs).status = "ok"
       ∨ (runEvents (startSession (mkSession id prov) (.spawned fd pid)).1 evs).status
          = "error") :
    (runChunks (runEvents (startSession (mkSession id prov) (.spawned fd pid)).1 evs)
        chunks).status
      = (runEvents (startSession (mkSession id prov) (.spawned fd pid)).1 evs).status := by
  have h0 : TerminalCompleted (startSession (mkSession id prov) (.spawned fd pid)).1 := by
    intro hx
    rcases hx with hx | hx <;> exact absurd hx (by simp [startSession])
  have hTC := runEvents_TC _ evs h0
  have hcomp := hTC h
  rw [runChunks_completed _ chunks hcomp]

/-- Witness for `claim_C5_terminal_monotonic` at concrete inputs. -/
theorem claim_C5_terminal_monotonic_witness :
    (runChunks (runEvents (startSession (mkSession "s1" "gemini") (.spawned 3 4242)).1
        [.chunk "Authentication saved"]) ["Enter choice", "x http://a.io/oauth y"]).status
      = (runEvents (startSession (mkSession "s1" "gemini") (.spawned 3 4242)).1
        [.chunk "Authentication saved"]).status :=
  claim_C5_terminal_monotonic "s1" "gemini" 3 4242 [.chunk "Authentication saved"]
    ["Enter choice", "x http://a.io/oauth y"] (Or.inl (by decide))

end CPA
